import Mathlib

/-!
Verification of the league-of-graphs statistics backend.

This file gives a shallow embedding of the Go data layer (`internal/data`):
the domain structs (`Summoner`, `Champion`, `Match`, `Team`, `KDA`, ...),
the relational store as association lists keyed the way the SQL tables are
keyed, the CRUD methods of `SummonerModel`, `ChampionModel` and `MatchModel`,
and the two transactional aggregate updaters `UpdateSummonerStatistics` and
`UpdateChampionStatistics` of `MatchModel`.

Modelling decisions, written next to the definitions they concern:
* Go `int`/`int64` values are modelled as `Int` (the quantities involved are
  tiny, so 64-bit wrap-around never matters for any claim here).
* `float8` columns are modelled as `ℚ`; the divisions performed by the code
  are exact at the magnitudes the claims speak about.
* Go integer division truncates toward zero, which is `Int.tdiv`.
* `database/sql` row scanning of a `float8` column into a Go `int` target
  (which the source does for the `win_rate` column) succeeds exactly when the
  value is integral and errors otherwise; `scanFloatAsInt` models this.
* I/O failures of individual statements inside a transaction are modelled by
  a fault oracle `faults : Nat → Bool` consulted once per database operation,
  in source order.
-/

namespace LeagueOfGraphs

/-- Go integer division: truncation toward zero. -/
def goDiv (a b : Int) : Int := a.tdiv b

/-- `database/sql` conversion of a `float8` column value into a Go `int`
scan target: `convertAssign` formats the float and re-parses it with
`strconv.ParseInt`, so the scan succeeds exactly when the value is integral,
yielding that integer, and errors otherwise. -/
def scanFloatAsInt (q : ℚ) : Option Int :=
  if q.den = 1 then some q.num else none

/-- The kills/deaths/assists triple (`data.KDA`). -/
structure KDA where
  kills : Int
  deaths : Int
  assists : Int
deriving DecidableEq

/-- Subset of `data.Champion` persisted in milestone columns; the derived
slice fields (`MatchHistory`, `BestSummoners`) carry a `json:"-"` tag, are
never read or written by any modelled operation, and are omitted. -/
structure Champion where
  id : Int
  name : String
  mainRole : String
  popularity : ℚ
  winRate : ℚ
  banRate : ℚ
deriving DecidableEq

/-- Subset of `data.Summoner` without the derived `json:"-"` slice fields
(`FrequentlyPlayedChampions`, `MatchHistory`, `FrequentlyPlayedRoles`),
which no modelled operation reads or writes. -/
structure Summoner where
  id : Int
  username : String
  region : String
  rating : Int
  countOfPlayedGames : Int
  winRate : ℚ
  averageKDA : KDA
deriving DecidableEq

/-- `data.ChampionData`. -/
structure ChampionData where
  name : String
  mainRole : String
deriving DecidableEq

/-- `data.SummonerMatchPerformance`. -/
structure SummonerMatchPerformance where
  username : String
  champion : ChampionData
  netWorth : Int
  kda : KDA
  boughtItems : List String
deriving DecidableEq

/-- `data.Team`. -/
structure Team where
  teamKDA : KDA
  turretsDestroyed : Int
  inhibitorsDestroyed : Int
  riftHeraldsKilled : Int
  dragonsKilled : Int
  baronNashorsKilled : Int
  summoners : List SummonerMatchPerformance
  bannedChampions : List Champion
deriving DecidableEq

/-- `data.Match`; the two teams are `*Team` pointers in Go, hence `Option`.
`PlayedDate` is an opaque timestamp, modelled as an integer. -/
structure Match where
  id : Int
  playedDate : Int
  duration : Int
  result : String
  blueTeam : Option Team
  redTeam : Option Team
deriving DecidableEq

/-- Row of the `summoners` table (see migration 000002): `username`,
`region`, `rating integer`, `count_of_played_games integer`,
`win_rate float8`, `average_kda jsonb`. -/
structure SummonerRow where
  username : String
  region : String
  rating : Int
  countOfPlayedGames : Int
  winRate : ℚ
  averageKDA : KDA
deriving DecidableEq

/-- Row of the `champions` table as the Go code addresses it: name,
main role, popularity, win rate, ban rate and the `count_of_played_matches`
column read and written by `UpdateChampionStatistics`. -/
structure ChampionRow where
  name : String
  mainRole : String
  popularity : ℚ
  winRate : ℚ
  banRate : ℚ
  countOfPlayedMatches : Int
deriving DecidableEq

/-- Value part of a `summoner_champion_stats` row (`data.ChampionStats`
minus the key fields). -/
structure ChampionStats where
  countOfPlayedMatches : Int
  winRate : ℚ
deriving DecidableEq

/-- Value part of a `summoner_role_stats` row (`data.RoleStats` minus the
key fields). -/
structure RoleStats where
  countOfPlayedMatches : Int
  winRate : ℚ
deriving DecidableEq

/-- Value part of a `champion_best_summoners` row
(`data.SummonerChampionStats` minus the key fields). -/
structure SummonerChampionStats where
  winRate : ℚ
  countOfPlayedMatches : Int
deriving DecidableEq

/-- Row of the `matches` table. -/
structure MatchRow where
  playedDate : Int
  duration : Int
  result : String
  blueTeam : Option Team
  redTeam : Option Team
deriving DecidableEq

/-- First-match association-list lookup: `SELECT ... WHERE key = k`
returning at most one row. -/
def findRow {κ α : Type} [DecidableEq κ] (k : κ) : List (κ × α) → Option α
  | [] => none
  | (k1, v) :: rest => if k = k1 then some v else findRow k rest

/-- `INSERT ... ON CONFLICT (key) DO UPDATE`: replace the row at the key if
present, append it otherwise. -/
def upsertRow {κ α : Type} [DecidableEq κ] (k : κ) (v : α) : List (κ × α) → List (κ × α)
  | [] => [(k, v)]
  | (k1, v1) :: rest => if k = k1 then (k, v) :: rest else (k1, v1) :: upsertRow k v rest

/-- `UPDATE ... SET ... WHERE key = k`: rewrite every row whose key matches
(a no-op when the key is absent, exactly as in SQL). -/
def updateRows {κ α : Type} [DecidableEq κ] (k : κ) (f : α → α) (l : List (κ × α)) :
    List (κ × α) :=
  l.map (fun p => if p.1 = k then (p.1, f p.2) else p)

/-- The whole relational store. The `next...Id` counters model the
`bigserial` id sequences. -/
structure DB where
  summoners : List (Int × SummonerRow)
  champions : List (Int × ChampionRow)
  matchRows : List (Int × MatchRow)
  summonerChampionStats : List ((Int × Int) × ChampionStats)
  summonerRoleStats : List ((Int × String) × RoleStats)
  championBestSummoners : List ((Int × Int) × SummonerChampionStats)
  nextSummonerId : Int
  nextChampionId : Int
  nextMatchId : Int
deriving DecidableEq

/-- Error domain of the data layer: `data.ErrRecordNotFound`, and an opaque
database/driver error (`sql.ErrNoRows` surfaced unwrapped, scan conversion
failures, I/O failures) which callers do not inspect. -/
inductive StoreError where
  | recordNotFound
  | sqlError
deriving DecidableEq

deriving instance DecidableEq for Except

/-- A fault oracle that never injects an I/O failure. -/
def noFaults : Nat → Bool := fun _ => false

/-- `(m *MatchModel) UpdateSummonerStatistics` (part_004 lines 42-156).
Database operations in source order consult the fault oracle:
0 `BeginTx`, 1 the summoner `SELECT`, 2 the champion-stats `SELECT`,
3 the champion-stats upsert, 4 the role-stats `SELECT`, 5 the role-stats
upsert, 6 the summoner `UPDATE`, 7 `Commit`. Note that the source scans the
`win_rate float8` column into the Go `int` variable `wins`
(`scanFloatAsInt`). Any error is returned before `Commit`, so the new state
is only produced on full success. -/
def updateSummonerStatistics (faults : Nat → Bool) (db : DB) (summonerID : Int)
    (champion : Champion) (kda : KDA) (role : String) (won : Bool) :
    Except StoreError DB :=
  if faults 0 then .error .sqlError else
  if faults 1 then .error .sqlError else
  match findRow summonerID db.summoners with
  | none => .error .sqlError
  | some srow =>
    match scanFloatAsInt srow.winRate with
    | none => .error .sqlError
    | some wins0 =>
      let playedGames : Int := srow.countOfPlayedGames + 1
      let wins : Int := if won then wins0 + 1 else wins0
      let winRate : ℚ := (wins : ℚ) / (playedGames : ℚ)
      let summedKDA : KDA :=
        ⟨srow.averageKDA.kills + kda.kills,
         srow.averageKDA.deaths + kda.deaths,
         srow.averageKDA.assists + kda.assists⟩
      let averageKDA : KDA :=
        ⟨goDiv summedKDA.kills playedGames,
         goDiv summedKDA.deaths playedGames,
         goDiv summedKDA.assists playedGames⟩
      if faults 2 then .error .sqlError else
      let cs0 : ChampionStats :=
        (findRow (summonerID, champion.id) db.summonerChampionStats).getD ⟨0, 0⟩
      let csCount : Int := cs0.countOfPlayedMatches + 1
      let csRate : ℚ :=
        if won then (cs0.winRate * ((csCount - 1 : Int) : ℚ) + 1) / (csCount : ℚ)
        else (cs0.winRate * ((csCount - 1 : Int) : ℚ)) / (csCount : ℚ)
      if faults 3 then .error .sqlError else
      let db1 : DB :=
        { db with summonerChampionStats :=
            upsertRow (summonerID, champion.id) ⟨csCount, csRate⟩ db.summonerChampionStats }
      if faults 4 then .error .sqlError else
      let rs0 : RoleStats :=
        (findRow (summonerID, role) db1.summonerRoleStats).getD ⟨0, 0⟩
      let rsCount : Int := rs0.countOfPlayedMatches + 1
      let rsRate : ℚ :=
        if won then (rs0.winRate * ((rsCount - 1 : Int) : ℚ) + 1) / (rsCount : ℚ)
        else (rs0.winRate * ((rsCount - 1 : Int) : ℚ)) / (rsCount : ℚ)
      if faults 5 then .error .sqlError else
      let db2 : DB :=
        { db1 with summonerRoleStats :=
            upsertRow (summonerID, role) ⟨rsCount, rsRate⟩ db1.summonerRoleStats }
      if faults 6 then .error .sqlError else
      let newSummoners :=
        updateRows summonerID
          (fun r =>
            { r with countOfPlayedGames := playedGames, winRate := winRate,
                     averageKDA := averageKDA })
          db2.summoners
      let db3 : DB := { db2 with summoners := newSummoners }
      if faults 7 then .error .sqlError else
      .ok db3

/-- `(m *MatchModel) UpdateChampionStatistics` (part_004 lines 159-232).
Operations in source order: 0 `BeginTx`, 1 the champion `SELECT`,
2 the popularity `SELECT COUNT(DISTINCT summoner_id)`, 3 the champion
`UPDATE`, 4 the summoner-champion-stats `SELECT` (whose absence is an
unhandled `sql.ErrNoRows`), 5 the best-summoners upsert, 6 `Commit`.
As in `updateSummonerStatistics` the source scans the `win_rate float8`
column into the Go `int` variable `wins`. -/
def updateChampionStatistics (faults : Nat → Bool) (db : DB) (championID : Int)
    (summonerID : Int) (won : Bool) : Except StoreError DB :=
  if faults 0 then .error .sqlError else
  if faults 1 then .error .sqlError else
  match findRow championID db.champions with
  | none => .error .sqlError
  | some crow =>
    match scanFloatAsInt crow.winRate with
    | none => .error .sqlError
    | some wins0 =>
      let matchHistoryCount : Int := crow.countOfPlayedMatches + 1
      let wins : Int := if won then wins0 + 1 else wins0
      let winRate : ℚ := (wins : ℚ) / (matchHistoryCount : ℚ)
      if faults 2 then .error .sqlError else
      let summonerCount : Int :=
        ((((db.summonerChampionStats.map Prod.fst).filter
            (fun k => k.2 = championID)).map Prod.fst).dedup).length
      let popularity : ℚ := (summonerCount : ℚ)
      if faults 3 then .error .sqlError else
      let newChampions :=
        updateRows championID
          (fun r =>
            { r with countOfPlayedMatches := matchHistoryCount, winRate := winRate,
                     popularity := popularity })
          db.champions
      let db1 : DB := { db with champions := newChampions }
      if faults 4 then .error .sqlError else
      match findRow (summonerID, championID) db1.summonerChampionStats with
      | none => .error .sqlError
      | some summonerStats =>
        if faults 5 then .error .sqlError else
        let newBest :=
          upsertRow (championID, summonerID)
            ⟨summonerStats.winRate, summonerStats.countOfPlayedMatches⟩
            db1.championBestSummoners
        let db2 : DB := { db1 with championBestSummoners := newBest }
        if faults 6 then .error .sqlError else
        .ok db2

/-- Committed-or-rolled-back visible state of `UpdateSummonerStatistics`:
the deferred `tx.Rollback()` leaves the store untouched on any error. -/
def runUpdateSummonerStatistics (faults : Nat → Bool) (db : DB) (summonerID : Int)
    (champion : Champion) (kda : KDA) (role : String) (won : Bool) : DB :=
  match updateSummonerStatistics faults db summonerID champion kda role won with
  | .ok db1 => db1
  | .error _ => db

/-- Committed-or-rolled-back visible state of `UpdateChampionStatistics`. -/
def runUpdateChampionStatistics (faults : Nat → Bool) (db : DB) (championID : Int)
    (summonerID : Int) (won : Bool) : DB :=
  match updateChampionStatistics faults db championID summonerID won with
  | .ok db1 => db1
  | .error _ => db

/-- Modelled from the spec: the `internal/validator` package is not under
`src/`. Spec section 4.3: the validation layer "collects field-presence and
basic consistency errors into a structured error set; does not mutate input;
returns whether the object is acceptable". A validator is its error set,
keyed by field name. -/
structure Validator where
  errors : List (String × String)
deriving DecidableEq

/-- Modelled from the spec: fresh validator with an empty error set. -/
def Validator.New : Validator := ⟨[]⟩

/-- Modelled from the spec: record an error message under a field key; the
error collection is a set keyed by field, so a key is recorded once. -/
def Validator.AddError (v : Validator) (key message : String) : Validator :=
  if v.errors.any (fun p => p.1 == key) then v
  else { errors := v.errors ++ [(key, message)] }

/-- Modelled from the spec: record an error unless the checked condition
holds. -/
def Validator.Check (v : Validator) (ok : Bool) (key message : String) : Validator :=
  if ok then v else v.AddError key message

/-- Modelled from the spec: the object is acceptable exactly when the error
set is empty. -/
def Validator.Valid (v : Validator) : Bool := v.errors.isEmpty

/-- `data.ValidateSummoner` (summoners.go lines 46-49). -/
def ValidateSummoner (v : Validator) (summoner : Summoner) : Validator :=
  let v1 := v.Check (summoner.username != "") "username" "must be provided"
  v1.Check (summoner.region != "") "region" "must be provided"

/-- `data.ValidateChampion` (champions.go lines 30-35). -/
def ValidateChampion (v : Validator) (champion : Champion) : Validator :=
  let v1 := v.Check (champion.name != "") "name" "must be provided"
  let v2 := v1.Check (champion.mainRole != "") "main_role" "must be provided"
  v2.Check (champion.name != "Champion") "name"
    "must be different from the name of the champion"

/-- `data.ValidateMatch` (part_005 lines 48-53). -/
def ValidateMatch (v : Validator) (m : Match) : Validator :=
  let v1 := v.Check (m.result != "") "result" "must be provided"
  let v2 := v1.Check (decide (0 < m.duration)) "duration" "must be provided"
  let v3 := v2.Check m.blueTeam.isSome "blue_team" "must be provided"
  v3.Check m.redTeam.isSome "red_team" "must be provided"

/-- `SummonerModel.Insert` (summoners.go lines 55-79): persists only the
caller's `Username` and `Region`, hard-codes rating 0, 0 played games,
win rate 0 and a zero average KDA, and writes only the sequence-assigned id
back into the struct. -/
def SummonerModel.Insert (db : DB) (summoner : Summoner) : DB × Summoner :=
  let id := db.nextSummonerId
  let row : SummonerRow :=
    { username := summoner.username, region := summoner.region, rating := 0,
      countOfPlayedGames := 0, winRate := 0, averageKDA := ⟨0, 0, 0⟩ }
  ({ db with summoners := db.summoners ++ [(id, row)], nextSummonerId := id + 1 },
   { summoner with id := id })

/-- `SummonerModel.Get` (summoners.go lines 94-127). -/
def SummonerModel.Get (db : DB) (id : Int) : Except StoreError Summoner :=
  if id < 1 then .error .recordNotFound
  else
    match findRow id db.summoners with
    | none => .error .recordNotFound
    | some r =>
      .ok { id := id, username := r.username, region := r.region, rating := r.rating,
            countOfPlayedGames := r.countOfPlayedGames, winRate := r.winRate,
            averageKDA := r.averageKDA }

/-- `SummonerModel.Update` (summoners.go lines 129-147): runs the `UPDATE`
through `QueryRow(...).Err()`, which reports only statement-execution
failures — an absent or non-positive id updates zero rows and yields no
error at all. -/
def SummonerModel.Update (db : DB) (summoner : Summoner) : Except StoreError DB :=
  let newRows :=
    updateRows summoner.id
      (fun _ =>
        { username := summoner.username, region := summoner.region,
          rating := summoner.rating, countOfPlayedGames := summoner.countOfPlayedGames,
          winRate := summoner.winRate, averageKDA := summoner.averageKDA })
      db.summoners
  .ok { db with summoners := newRows }

/-- `SummonerModel.Delete` (summoners.go lines 149-173). -/
def SummonerModel.Delete (db : DB) (id : Int) : Except StoreError DB :=
  if id < 1 then .error .recordNotFound
  else
    let remaining := db.summoners.filter (fun p => p.1 != id)
    let rowsAffected := db.summoners.length - remaining.length
    if rowsAffected = 0 then .error .recordNotFound
    else .ok { db with summoners := remaining }

/-- `ChampionModel.Insert` (champions.go lines 41-51): persists name and
main role, the remaining columns take their schema defaults, and the
`RETURNING` clause writes id and the default popularity, win and ban rates
back into the struct. -/
def ChampionModel.Insert (db : DB) (champion : Champion) : DB × Champion :=
  let id := db.nextChampionId
  let row : ChampionRow :=
    { name := champion.name, mainRole := champion.mainRole, popularity := 0,
      winRate := 0, banRate := 0, countOfPlayedMatches := 0 }
  ({ db with champions := db.champions ++ [(id, row)], nextChampionId := id + 1 },
   { champion with id := id, popularity := 0, winRate := 0, banRate := 0 })

/-- `ChampionModel.Get` (champions.go lines 53-85). -/
def ChampionModel.Get (db : DB) (id : Int) : Except StoreError Champion :=
  if id < 1 then .error .recordNotFound
  else
    match findRow id db.champions with
    | none => .error .recordNotFound
    | some r =>
      .ok { id := id, name := r.name, mainRole := r.mainRole,
            popularity := r.popularity, winRate := r.winRate, banRate := r.banRate }

/-- `ChampionModel.Update` (champions.go lines 87-97): same
`QueryRow(...).Err()` pattern as `SummonerModel.Update`; only name and main
role are written and no missing-id condition is ever reported. -/
def ChampionModel.Update (db : DB) (champion : Champion) : Except StoreError DB :=
  let newRows :=
    updateRows champion.id
      (fun r => { r with name := champion.name, mainRole := champion.mainRole })
      db.champions
  .ok { db with champions := newRows }

/-- `ChampionModel.Delete` (champions.go lines 99-123). -/
def ChampionModel.Delete (db : DB) (id : Int) : Except StoreError DB :=
  if id < 1 then .error .recordNotFound
  else
    let remaining := db.champions.filter (fun p => p.1 != id)
    let rowsAffected := db.champions.length - remaining.length
    if rowsAffected = 0 then .error .recordNotFound
    else .ok { db with champions := remaining }

/-- `MatchModel.Insert` (part_005 lines 59-79): persists duration, result,
played date and the two JSON-serialized team blobs, and writes the assigned
id back. -/
def MatchModel.Insert (db : DB) (m : Match) : DB × Match :=
  let id := db.nextMatchId
  let row : MatchRow :=
    { playedDate := m.playedDate, duration := m.duration, result := m.result,
      blueTeam := m.blueTeam, redTeam := m.redTeam }
  ({ db with matchRows := db.matchRows ++ [(id, row)], nextMatchId := id + 1 },
   { m with id := id })

/-- `MatchModel.Get` (part_005 lines 94-126). -/
def MatchModel.Get (db : DB) (id : Int) : Except StoreError Match :=
  if id < 1 then .error .recordNotFound
  else
    match findRow id db.matchRows with
    | none => .error .recordNotFound
    | some r =>
      .ok { id := id, playedDate := r.playedDate, duration := r.duration,
            result := r.result, blueTeam := r.blueTeam, redTeam := r.redTeam }

/-- `MatchModel.Update` (part_005 lines 128-145): the `QueryRow(...).Err()`
pattern again — no missing-id condition is reported. -/
def MatchModel.Update (db : DB) (m : Match) : Except StoreError DB :=
  let newRows :=
    updateRows m.id
      (fun _ =>
        { playedDate := m.playedDate, duration := m.duration, result := m.result,
          blueTeam := m.blueTeam, redTeam := m.redTeam })
      db.matchRows
  .ok { db with matchRows := newRows }

/-- `MatchModel.Delete` (part_005 lines 147-172). -/
def MatchModel.Delete (db : DB) (id : Int) : Except StoreError DB :=
  if id < 1 then .error .recordNotFound
  else
    let remaining := db.matchRows.filter (fun p => p.1 != id)
    let rowsAffected := db.matchRows.length - remaining.length
    if rowsAffected = 0 then .error .recordNotFound
    else .ok { db with matchRows := remaining }

/-- A win-rate value is a fraction in the closed unit interval. -/
def validRate (q : ℚ) : Prop := 0 ≤ q ∧ q ≤ 1

instance : DecidablePred validRate :=
  fun q => inferInstanceAs (Decidable (0 ≤ q ∧ q ≤ 1))

/-- Aggregate-state invariant: every stored win rate (summoner, champion,
per-champion, per-role and best-summoners rows) lies in `[0,1]`, all
games/match counters are nonnegative, and a summoner or champion row with
zero recorded games does not already claim a win rate of `1`. -/
def statsInvariant (db : DB) : Prop :=
  (∀ p ∈ db.summoners,
      validRate p.2.winRate ∧ 0 ≤ p.2.countOfPlayedGames ∧
        (p.2.countOfPlayedGames = 0 → p.2.winRate < 1)) ∧
  (∀ p ∈ db.champions,
      validRate p.2.winRate ∧ 0 ≤ p.2.countOfPlayedMatches ∧
        (p.2.countOfPlayedMatches = 0 → p.2.winRate < 1)) ∧
  (∀ p ∈ db.summonerChampionStats,
      validRate p.2.winRate ∧ 0 ≤ p.2.countOfPlayedMatches) ∧
  (∀ p ∈ db.summonerRoleStats,
      validRate p.2.winRate ∧ 0 ≤ p.2.countOfPlayedMatches) ∧
  (∀ p ∈ db.championBestSummoners,
      validRate p.2.winRate ∧ 0 ≤ p.2.countOfPlayedMatches)

instance (db : DB) : Decidable (statsInvariant db) := by
  unfold statsInvariant
  infer_instance

/-- The invariant exactly as claimed: every stored win rate lies in the
closed unit interval. -/
def winRatesInUnitInterval (db : DB) : Prop :=
  (∀ p ∈ db.summoners, validRate p.2.winRate) ∧
  (∀ p ∈ db.champions, validRate p.2.winRate) ∧
  (∀ p ∈ db.summonerChampionStats, validRate p.2.winRate) ∧
  (∀ p ∈ db.summonerRoleStats, validRate p.2.winRate) ∧
  (∀ p ∈ db.championBestSummoners, validRate p.2.winRate)

instance (db : DB) : Decidable (winRatesInUnitInterval db) := by
  unfold winRatesInUnitInterval
  infer_instance

/-- A store with no rows, with all id sequences at their initial value 1. -/
def emptyDB : DB :=
  { summoners := [], champions := [], matchRows := [], summonerChampionStats := [],
    summonerRoleStats := [], championBestSummoners := [],
    nextSummonerId := 1, nextChampionId := 1, nextMatchId := 1 }

/-- A fault oracle that fails every database operation. -/
def faultsAll : Nat → Bool := fun _ => true

/-- A concrete champion used as test input. -/
def champW : Champion := ⟨7, "Ahri", "Mid", 0, 0, 0⟩

/-- A store holding exactly one summoner, with id 1, the given games count,
win rate and average KDA, and nothing else. -/
def oneSummoner (g : Int) (rate : ℚ) (kda : KDA) : DB :=
  { summoners := [(1, ⟨"alice", "EUW", 0, g, rate, kda⟩)],
    champions := [], matchRows := [], summonerChampionStats := [],
    summonerRoleStats := [], championBestSummoners := [],
    nextSummonerId := 2, nextChampionId := 1, nextMatchId := 1 }

/-- A store holding one champion (id 7, no matches yet) and one
summoner-champion stats row for summoner 1 on that champion. -/
def dbChamp : DB :=
  { summoners := [], champions := [(7, ⟨"Ahri", "Mid", 0, 0, 0, 0⟩)], matchRows := [],
    summonerChampionStats := [((1, 7), ⟨3, 1/3⟩)], summonerRoleStats := [],
    championBestSummoners := [], nextSummonerId := 1, nextChampionId := 8,
    nextMatchId := 1 }

theorem findRow_upsertRow_self {κ α : Type} [DecidableEq κ] (k : κ) (v : α)
    (l : List (κ × α)) : findRow k (upsertRow k v l) = some v := by
  induction l with
  | nil => simp [upsertRow, findRow]
  | cons p rest ih =>
    obtain ⟨k1, v1⟩ := p
    by_cases h : k = k1 <;> simp [upsertRow, findRow, h, ih]

theorem mem_upsertRow {κ α : Type} [DecidableEq κ] {k : κ} {v : α}
    {l : List (κ × α)} {p : κ × α} (hp : p ∈ upsertRow k v l) :
    p = (k, v) ∨ p ∈ l := by
  induction l with
  | nil => simpa [upsertRow] using hp
  | cons q rest ih =>
    obtain ⟨k1, v1⟩ := q
    by_cases h : k = k1
    · simp [upsertRow, h] at hp
      rcases hp with hp | hp
      · left; simp [hp, h]
      · right; exact List.mem_cons_of_mem _ hp
    · simp [upsertRow, h] at hp
      rcases hp with hp | hp
      · right; simp [hp]
      · rcases ih hp with hp1 | hp1
        · left; exact hp1
        · right; exact List.mem_cons_of_mem _ hp1

theorem mem_updateRows {κ α : Type} [DecidableEq κ] {k : κ} {f : α → α}
    {l : List (κ × α)} {p : κ × α} (hp : p ∈ updateRows k f l) :
    p ∈ l ∨ ∃ q ∈ l, q.1 = k ∧ p = (q.1, f q.2) := by
  unfold updateRows at hp
  rcases List.mem_map.1 hp with ⟨q, hq, hpq⟩
  by_cases h : q.1 = k
  · right
    refine ⟨q, hq, h, ?_⟩
    simp [h] at hpq
    simp [h, hpq.symm]
  · left
    simp [h] at hpq
    exact hpq ▸ hq

theorem findRow_mem {κ α : Type} [DecidableEq κ] {k : κ} {l : List (κ × α)} {v : α}
    (h : findRow k l = some v) : (k, v) ∈ l := by
  induction l with
  | nil => simp [findRow] at h
  | cons q rest ih =>
    obtain ⟨k1, v1⟩ := q
    by_cases hk : k = k1
    · simp [findRow, hk] at h
      simp [hk, h]
    · simp [findRow, hk] at h
      exact List.mem_cons_of_mem _ (ih h)

theorem filter_of_findRow_none {κ α : Type} [DecidableEq κ] {k : κ} {l : List (κ × α)}
    (h : findRow k l = none) : l.filter (fun p => p.1 != k) = l := by
  induction l with
  | nil => simp
  | cons q rest ih =>
    obtain ⟨k1, v1⟩ := q
    by_cases hk : k = k1
    · simp [findRow, hk] at h
    · simp [findRow, hk] at h
      have hne : (k1 != k) = true := by simp [bne]; exact fun hh => hk hh.symm
      simp [List.filter, hne, ih h]

theorem findRow_append_self {κ α : Type} [DecidableEq κ] {k : κ} {v : α}
    {l : List (κ × α)} (h : findRow k l = none) :
    findRow k (l ++ [(k, v)]) = some v := by
  induction l with
  | nil => simp [findRow]
  | cons q rest ih =>
    obtain ⟨k1, v1⟩ := q
    by_cases hk : k = k1 <;> simp [findRow, hk] at h ⊢
    · exact ih h

theorem updateSummonerStatistics_ok_spec (faults : Nat → Bool) (db db' : DB)
    (summonerID : Int) (champion : Champion) (kda : KDA) (role : String) (won : Bool)
    (h : updateSummonerStatistics faults db summonerID champion kda role won = .ok db') :
    ∃ srow wins0,
      findRow summonerID db.summoners = some srow ∧
      scanFloatAsInt srow.winRate = some wins0 ∧
      db'.summonerChampionStats =
        upsertRow (summonerID, champion.id)
          ⟨((findRow (summonerID, champion.id) db.summonerChampionStats).getD ⟨0, 0⟩).countOfPlayedMatches + 1,
           (if won then
              (((findRow (summonerID, champion.id) db.summonerChampionStats).getD ⟨0, 0⟩).winRate *
                ((((findRow (summonerID, champion.id) db.summonerChampionStats).getD ⟨0, 0⟩).countOfPlayedMatches + 1 - 1 : Int) : ℚ) + 1) /
                ((((findRow (summonerID, champion.id) db.summonerChampionStats).getD ⟨0, 0⟩).countOfPlayedMatches + 1 : Int) : ℚ)
            else
              (((findRow (summonerID, champion.id) db.summonerChampionStats).getD ⟨0, 0⟩).winRate *
                ((((findRow (summonerID, champion.id) db.summonerChampionStats).getD ⟨0, 0⟩).countOfPlayedMatches + 1 - 1 : Int) : ℚ)) /
                ((((findRow (summonerID, champion.id) db.summonerChampionStats).getD ⟨0, 0⟩).countOfPlayedMatches + 1 : Int) : ℚ))⟩
          db.summonerChampionStats ∧
      db'.summonerRoleStats =
        upsertRow (summonerID, role)
          ⟨((findRow (summonerID, role) db.summonerRoleStats).getD ⟨0, 0⟩).countOfPlayedMatches + 1,
           (if won then
              (((findRow (summonerID, role) db.summonerRoleStats).getD ⟨0, 0⟩).winRate *
                ((((findRow (summonerID, role) db.summonerRoleStats).getD ⟨0, 0⟩).countOfPlayedMatches + 1 - 1 : Int) : ℚ) + 1) /
                ((((findRow (summonerID, role) db.summonerRoleStats).getD ⟨0, 0⟩).countOfPlayedMatches + 1 : Int) : ℚ)
            else
              (((findRow (summonerID, role) db.summonerRoleStats).getD ⟨0, 0⟩).winRate *
                ((((findRow (summonerID, role) db.summonerRoleStats).getD ⟨0, 0⟩).countOfPlayedMatches + 1 - 1 : Int) : ℚ)) /
                ((((findRow (summonerID, role) db.summonerRoleStats).getD ⟨0, 0⟩).countOfPlayedMatches + 1 : Int) : ℚ))⟩
          db.summonerRoleStats ∧
      db'.summoners =
        updateRows summonerID
          (fun r =>
            { r with countOfPlayedGames := srow.countOfPlayedGames + 1,
                     winRate := (((if won then wins0 + 1 else wins0) : Int) : ℚ) /
                       ((srow.countOfPlayedGames + 1 : Int) : ℚ),
                     averageKDA :=
                       ⟨goDiv (srow.averageKDA.kills + kda.kills) (srow.countOfPlayedGames + 1),
                        goDiv (srow.averageKDA.deaths + kda.deaths) (srow.countOfPlayedGames + 1),
                        goDiv (srow.averageKDA.assists + kda.assists) (srow.countOfPlayedGames + 1)⟩ })
          db.summoners ∧
      db'.champions = db.champions ∧
      db'.championBestSummoners = db.championBestSummoners ∧
      db'.matchRows = db.matchRows := by
  cases won <;>
  · unfold updateSummonerStatistics at h
    split at h
    · exact absurd h (by simp)
    split at h
    · exact absurd h (by simp)
    split at h
    · exact absurd h (by simp)
    next srow hfind =>
      split at h
      · exact absurd h (by simp)
      next wins0 hscan =>
        refine ⟨srow, wins0, hfind, hscan, ?_⟩
        simp only [reduceIte] at h
        split at h
        · exact absurd h (by simp)
        split at h
        · exact absurd h (by simp)
        split at h
        · exact absurd h (by simp)
        split at h
        · exact absurd h (by simp)
        split at h
        · exact absurd h (by simp)
        split at h
        · exact absurd h (by simp)
        cases h
        refine ⟨rfl, rfl, rfl, rfl, rfl, rfl⟩

theorem updateChampionStatistics_ok_spec (faults : Nat → Bool) (db db' : DB)
    (championID summonerID : Int) (won : Bool)
    (h : updateChampionStatistics faults db championID summonerID won = .ok db') :
    ∃ crow wins0 scs,
      findRow championID db.champions = some crow ∧
      scanFloatAsInt crow.winRate = some wins0 ∧
      findRow (summonerID, championID) db.summonerChampionStats = some scs ∧
      db'.champions =
        updateRows championID
          (fun r =>
            { r with countOfPlayedMatches := crow.countOfPlayedMatches + 1,
                     winRate := (((if won then wins0 + 1 else wins0) : Int) : ℚ) /
                       ((crow.countOfPlayedMatches + 1 : Int) : ℚ),
                     popularity :=
                       (((((db.summonerChampionStats.map Prod.fst).filter
                             (fun k => k.2 = championID)).map Prod.fst).dedup.length : Int) : ℚ) })
          db.champions ∧
      db'.championBestSummoners =
        upsertRow (championID, summonerID) ⟨scs.winRate, scs.countOfPlayedMatches⟩
          db.championBestSummoners ∧
      db'.summoners = db.summoners ∧
      db'.summonerChampionStats = db.summonerChampionStats ∧
      db'.summonerRoleStats = db.summonerRoleStats ∧
      db'.matchRows = db.matchRows := by
  cases won <;>
  · unfold updateChampionStatistics at h
    split at h
    · exact absurd h (by simp)
    split at h
    · exact absurd h (by simp)
    split at h
    · exact absurd h (by simp)
    next crow hfind =>
      split at h
      · exact absurd h (by simp)
      next wins0 hscan =>
        simp only [reduceIte] at h
        split at h
        · exact absurd h (by simp)
        split at h
        · exact absurd h (by simp)
        split at h
        · exact absurd h (by simp)
        split at h
        · exact absurd h (by simp)
        next scs hstats =>
          split at h
          · exact absurd h (by simp)
          split at h
          · exact absurd h (by simp)
          cases h
          exact ⟨crow, wins0, scs, hfind, hscan, hstats, rfl, rfl, rfl, rfl, rfl, rfl⟩

unseal Rat.mul Rat.inv Rat.add Rat.sub in
/-- Claim C1 (code bug, evaluation): the Statistics Updater does not compute
the summoner win rate as (prior wins + win)/(prior games + 1). The source
scans the `win_rate float8` column into the `int` variable `wins`: for a
summoner with 2 games and win rate 1/2 (i.e. 1 prior win) the whole update
errors out instead of storing 2/3, and for a summoner with 3 games and win
rate 1 (3 prior wins) a further win stores (1+1)/4 = 1/2 where the claim
demands (3+1)/4 = 1. -/
theorem c1_summoner_winrate_formula_eval :
    updateSummonerStatistics noFaults (oneSummoner 2 (1/2) ⟨0, 0, 0⟩) 1 champW
        ⟨0, 0, 0⟩ "Top" true = .error .sqlError ∧
    (findRow 1 (runUpdateSummonerStatistics noFaults (oneSummoner 3 1 ⟨0, 0, 0⟩) 1 champW
        ⟨0, 0, 0⟩ "Top" true).summoners).map (fun r => r.winRate) = some (1/2) ∧
    ((1 : ℚ)/2) ≠ (3 + 1)/(3 + 1) := by
  decide

unseal Rat.mul Rat.inv Rat.add Rat.sub in
/-- Claim C2 (code bug, evaluation): the source adds one match's KDA to the
prior average and divides by the new count, storing (a + k)/(g + 1) instead
of the cumulative mean (a*g + k)/(g + 1). For prior average kills 10 over 4
games and a match with 10 kills it stores (10+10)/5 = 4 where the claimed
mean is (10*4+10)/5 = 10. -/
theorem c2_kda_running_average_eval :
    (findRow 1 (runUpdateSummonerStatistics noFaults (oneSummoner 4 0 ⟨10, 0, 0⟩) 1 champW
        ⟨10, 0, 0⟩ "Top" false).summoners).map (fun r => r.averageKDA) = some ⟨4, 0, 0⟩ ∧
    goDiv (10 * 4 + 10) (4 + 1) = 10 ∧ (4 : Int) ≠ 10 := by
  decide

/-- Claim C3: any failing step inside either statistics transaction makes
the operation return an error, and the visible (committed) store is then
exactly the pre-match store: no partial update survives, for every fault
oracle and every starting state. -/
theorem c3_failure_rolls_back (faults : Nat → Bool) (db : DB) (summonerID : Int)
    (champion : Champion) (kda : KDA) (role : String) (won : Bool)
    (championID summonerID2 : Int) (won2 : Bool) :
    (∀ e, updateSummonerStatistics faults db summonerID champion kda role won = .error e →
        runUpdateSummonerStatistics faults db summonerID champion kda role won = db) ∧
    (∀ e, updateChampionStatistics faults db championID summonerID2 won2 = .error e →
        runUpdateChampionStatistics faults db championID summonerID2 won2 = db) := by
  constructor <;> intro e h <;>
    simp [runUpdateSummonerStatistics, runUpdateChampionStatistics, h]

/-- Witness for C3: with every operation failing, both updaters leave the
empty store untouched. -/
theorem c3_failure_rolls_back_witness :
    runUpdateSummonerStatistics faultsAll emptyDB 1 champW ⟨0, 0, 0⟩ "Top" true = emptyDB ∧
    runUpdateChampionStatistics faultsAll emptyDB 7 1 true = emptyDB :=
  ⟨(c3_failure_rolls_back faultsAll emptyDB 1 champW ⟨0, 0, 0⟩ "Top" true 7 1 true).1
      .sqlError rfl,
   (c3_failure_rolls_back faultsAll emptyDB 1 champW ⟨0, 0, 0⟩ "Top" true 7 1 true).2
      .sqlError rfl⟩

/-- Claim C5 (counterexample): `SummonerModel.Update` on a summoner whose id
(0) is non-positive and absent from the store reports no error at all — it
does not return the NotFound error the claim demands. -/
theorem c5_counterexample_update_no_notfound :
    SummonerModel.Update emptyDB ⟨0, "ghost", "EUW", 0, 0, 0, ⟨0, 0, 0⟩⟩ = .ok emptyDB ∧
    (Except.ok emptyDB : Except StoreError DB) ≠ .error .recordNotFound := by
  decide

/-- Claim C5 (amended): Get and Delete on a non-positive or absent id return
the NotFound error for all three entity models; the Update methods perform
no existence check and always succeed without reporting NotFound. -/
theorem c5_amended_get_delete_notfound (db : DB) (id : Int)
    (hs : id < 1 ∨ findRow id db.summoners = none)
    (hc : id < 1 ∨ findRow id db.champions = none)
    (hm : id < 1 ∨ findRow id db.matchRows = none) :
    SummonerModel.Get db id = .error .recordNotFound ∧
    SummonerModel.Delete db id = .error .recordNotFound ∧
    ChampionModel.Get db id = .error .recordNotFound ∧
    ChampionModel.Delete db id = .error .recordNotFound ∧
    MatchModel.Get db id = .error .recordNotFound ∧
    MatchModel.Delete db id = .error .recordNotFound ∧
    (∀ s : Summoner, (SummonerModel.Update db s).isOk = true) ∧
    (∀ c : Champion, (ChampionModel.Update db c).isOk = true) ∧
    (∀ m : Match, (MatchModel.Update db m).isOk = true) := by
  by_cases hid : id < 1
  · exact ⟨by simp [SummonerModel.Get, hid], by simp [SummonerModel.Delete, hid],
      by simp [ChampionModel.Get, hid], by simp [ChampionModel.Delete, hid],
      by simp [MatchModel.Get, hid], by simp [MatchModel.Delete, hid],
      fun s => rfl, fun c => rfl, fun m => rfl⟩
  · replace hs := hs.resolve_left hid
    replace hc := hc.resolve_left hid
    replace hm := hm.resolve_left hid
    refine ⟨by simp [SummonerModel.Get, hid, hs], ?_,
      by simp [ChampionModel.Get, hid, hc], ?_,
      by simp [MatchModel.Get, hid, hm], ?_,
      fun s => rfl, fun c => rfl, fun m => rfl⟩
    · simp [SummonerModel.Delete, hid, filter_of_findRow_none hs]
    · simp [ChampionModel.Delete, hid, filter_of_findRow_none hc]
    · simp [MatchModel.Delete, hid, filter_of_findRow_none hm]

/-- Witness for the amended C5 at id 0 on the empty store. -/
theorem c5_amended_witness :
    SummonerModel.Get emptyDB 0 = .error .recordNotFound ∧
    SummonerModel.Delete emptyDB 0 = .error .recordNotFound ∧
    ChampionModel.Get emptyDB 0 = .error .recordNotFound ∧
    ChampionModel.Delete emptyDB 0 = .error .recordNotFound ∧
    MatchModel.Get emptyDB 0 = .error .recordNotFound ∧
    MatchModel.Delete emptyDB 0 = .error .recordNotFound ∧
    (∀ s : Summoner, (SummonerModel.Update emptyDB s).isOk = true) ∧
    (∀ c : Champion, (ChampionModel.Update emptyDB c).isOk = true) ∧
    (∀ m : Match, (MatchModel.Update emptyDB m).isOk = true) :=
  c5_amended_get_delete_notfound emptyDB 0 (Or.inl (by decide)) (Or.inl (by decide))
    (Or.inl (by decide))

unseal Rat.mul Rat.inv Rat.add Rat.sub in
/-- Claim C6: starting from a summoner with 0 games and win rate 0, a won
match stores games = 1 and win rate 1, and a following lost match stores
games = 2 and win rate 1/2. -/
theorem c6_example_scenario :
    (findRow 1 (runUpdateSummonerStatistics noFaults (oneSummoner 0 0 ⟨0, 0, 0⟩) 1 champW
        ⟨1, 2, 3⟩ "Top" true).summoners).map
      (fun r => (r.countOfPlayedGames, r.winRate)) = some (1, 1) ∧
    (findRow 1 (runUpdateSummonerStatistics noFaults
        (runUpdateSummonerStatistics noFaults (oneSummoner 0 0 ⟨0, 0, 0⟩) 1 champW
          ⟨1, 2, 3⟩ "Top" true)
        1 champW ⟨2, 1, 0⟩ "Top" false).summoners).map
      (fun r => (r.countOfPlayedGames, r.winRate)) = some (2, 1/2) := by
  decide

/-- Claim C9: a champion literally named "Champion" is rejected by
`ValidateChampion` whatever its other fields are. -/
theorem c9_validate_champion_reserved_name (champion : Champion)
    (h : champion.name = "Champion") :
    (ValidateChampion Validator.New champion).Valid = false := by
  have h1 : (champion.name != "") = true := by simp [h]
  have h3 : (champion.name != "Champion") = false := by simp [h]
  cases h2 : (champion.mainRole != "") <;>
    simp [ValidateChampion, Validator.Check, Validator.AddError, Validator.New,
      Validator.Valid, h1, h2, h3]

/-- Witness for C9 at a champion named "Champion" with a non-empty role. -/
theorem c9_validate_champion_reserved_name_witness :
    (ValidateChampion Validator.New ⟨1, "Champion", "Mid", 0, 0, 0⟩).Valid = false :=
  c9_validate_champion_reserved_name ⟨1, "Champion", "Mid", 0, 0, 0⟩ rfl

/-- Claim C10: `SummonerModel.Insert` writes only the assigned id back into
the passed struct, and the persisted row carries the caller's username and
region together with rating 0, 0 played games, win rate 0 and a zero KDA,
whatever statistics the passed struct claimed. -/
theorem c10_insert_persists_defaults (db : DB) (s : Summoner)
    (hid : 1 ≤ db.nextSummonerId)
    (hfresh : findRow db.nextSummonerId db.summoners = none) :
    (SummonerModel.Insert db s).2 = { s with id := db.nextSummonerId } ∧
    SummonerModel.Get (SummonerModel.Insert db s).1 db.nextSummonerId =
      .ok { id := db.nextSummonerId, username := s.username, region := s.region,
            rating := 0, countOfPlayedGames := 0, winRate := 0,
            averageKDA := ⟨0, 0, 0⟩ } := by
  constructor
  · rfl
  · have hnot : ¬ db.nextSummonerId < 1 := by omega
    simp [SummonerModel.Insert, SummonerModel.Get, hnot, findRow_append_self hfresh]

/-- Witness for C10: inserting a struct with nonzero rating, games, win
rate and KDA still persists the zero defaults and only rewrites the id. -/
theorem c10_insert_persists_defaults_witness :
    (SummonerModel.Insert emptyDB ⟨99, "bob", "NA", 5, 7, 3/4, ⟨9, 9, 9⟩⟩).2 =
      { (⟨99, "bob", "NA", 5, 7, 3/4, ⟨9, 9, 9⟩⟩ : Summoner) with
          id := emptyDB.nextSummonerId } ∧
    SummonerModel.Get
        (SummonerModel.Insert emptyDB ⟨99, "bob", "NA", 5, 7, 3/4, ⟨9, 9, 9⟩⟩).1
        emptyDB.nextSummonerId =
      .ok { id := emptyDB.nextSummonerId, username := "bob", region := "NA", rating := 0,
            countOfPlayedGames := 0, winRate := 0, averageKDA := ⟨0, 0, 0⟩ } :=
  c10_insert_persists_defaults emptyDB ⟨99, "bob", "NA", 5, 7, 3/4, ⟨9, 9, 9⟩⟩
    (by decide) (by decide)

/-- Claim C8: for valid inputs, Insert followed by Get at the id Insert
assigned returns a value agreeing with the inserted one on every
caller-set field: username and region for summoners, name and main role
for champions, and all five recorded fields for matches. The id-sequence
hypotheses say what the `bigserial` sequences guarantee: the next id is at
least 1 and not yet used by a row. -/
theorem c8_insert_get_roundtrip (db : DB) (s : Summoner) (c : Champion) (m : Match)
    (hids : 1 ≤ db.nextSummonerId) (hfs : findRow db.nextSummonerId db.summoners = none)
    (hidc : 1 ≤ db.nextChampionId) (hfc : findRow db.nextChampionId db.champions = none)
    (hidm : 1 ≤ db.nextMatchId) (hfm : findRow db.nextMatchId db.matchRows = none)
    (hvs : (ValidateSummoner Validator.New s).Valid = true)
    (hvc : (ValidateChampion Validator.New c).Valid = true)
    (hvm : (ValidateMatch Validator.New m).Valid = true) :
    SummonerModel.Get (SummonerModel.Insert db s).1 (SummonerModel.Insert db s).2.id =
      .ok { id := (SummonerModel.Insert db s).2.id, username := s.username,
            region := s.region, rating := 0, countOfPlayedGames := 0, winRate := 0,
            averageKDA := ⟨0, 0, 0⟩ } ∧
    ChampionModel.Get (ChampionModel.Insert db c).1 (ChampionModel.Insert db c).2.id =
      .ok { id := (ChampionModel.Insert db c).2.id, name := c.name,
            mainRole := c.mainRole, popularity := 0, winRate := 0, banRate := 0 } ∧
    MatchModel.Get (MatchModel.Insert db m).1 (MatchModel.Insert db m).2.id =
      .ok { m with id := (MatchModel.Insert db m).2.id } := by
  refine ⟨?_, ?_, ?_⟩
  · have hnot : ¬ db.nextSummonerId < 1 := by omega
    simp [SummonerModel.Insert, SummonerModel.Get, hnot, findRow_append_self hfs]
  · have hnot : ¬ db.nextChampionId < 1 := by omega
    simp [ChampionModel.Insert, ChampionModel.Get, hnot, findRow_append_self hfc]
  · have hnot : ¬ db.nextMatchId < 1 := by omega
    simp [MatchModel.Insert, MatchModel.Get, hnot, findRow_append_self hfm]

/-- Witness for C8 on the empty store with concrete valid inputs. -/
theorem c8_insert_get_roundtrip_witness :
    SummonerModel.Get
        (SummonerModel.Insert emptyDB ⟨0, "alice", "EUW", 0, 0, 0, ⟨0, 0, 0⟩⟩).1
        (SummonerModel.Insert emptyDB ⟨0, "alice", "EUW", 0, 0, 0, ⟨0, 0, 0⟩⟩).2.id =
      .ok { id := (SummonerModel.Insert emptyDB ⟨0, "alice", "EUW", 0, 0, 0, ⟨0, 0, 0⟩⟩).2.id,
            username := "alice", region := "EUW", rating := 0, countOfPlayedGames := 0,
            winRate := 0, averageKDA := ⟨0, 0, 0⟩ } ∧
    ChampionModel.Get
        (ChampionModel.Insert emptyDB ⟨0, "Ahri", "Mid", 0, 0, 0⟩).1
        (ChampionModel.Insert emptyDB ⟨0, "Ahri", "Mid", 0, 0, 0⟩).2.id =
      .ok { id := (ChampionModel.Insert emptyDB ⟨0, "Ahri", "Mid", 0, 0, 0⟩).2.id,
            name := "Ahri", mainRole := "Mid", popularity := 0, winRate := 0,
            banRate := 0 } ∧
    MatchModel.Get
        (MatchModel.Insert emptyDB
          ⟨0, 1700000000, 1800, "blue", some ⟨⟨0, 0, 0⟩, 0, 0, 0, 0, 0, [], []⟩,
            some ⟨⟨0, 0, 0⟩, 0, 0, 0, 0, 0, [], []⟩⟩).1
        (MatchModel.Insert emptyDB
          ⟨0, 1700000000, 1800, "blue", some ⟨⟨0, 0, 0⟩, 0, 0, 0, 0, 0, [], []⟩,
            some ⟨⟨0, 0, 0⟩, 0, 0, 0, 0, 0, [], []⟩⟩).2.id =
      .ok { (⟨0, 1700000000, 1800, "blue", some ⟨⟨0, 0, 0⟩, 0, 0, 0, 0, 0, [], []⟩,
              some ⟨⟨0, 0, 0⟩, 0, 0, 0, 0, 0, [], []⟩⟩ : Match) with
            id := (MatchModel.Insert emptyDB
              ⟨0, 1700000000, 1800, "blue", some ⟨⟨0, 0, 0⟩, 0, 0, 0, 0, 0, [], []⟩,
                some ⟨⟨0, 0, 0⟩, 0, 0, 0, 0, 0, [], []⟩⟩).2.id } :=
  c8_insert_get_roundtrip emptyDB ⟨0, "alice", "EUW", 0, 0, 0, ⟨0, 0, 0⟩⟩
    ⟨0, "Ahri", "Mid", 0, 0, 0⟩
    ⟨0, 1700000000, 1800, "blue", some ⟨⟨0, 0, 0⟩, 0, 0, 0, 0, 0, [], []⟩,
      some ⟨⟨0, 0, 0⟩, 0, 0, 0, 0, 0, [], []⟩⟩
    (by decide) (by decide) (by decide) (by decide) (by decide) (by decide)
    (by decide) (by decide) (by decide)

/-- Claim C4: whenever `UpdateSummonerStatistics` commits, the upserted
per-champion row holds played count n = (prior count) + 1 and win rate
(prior rate * (n-1) + win)/n with win 1 on a win and 0 on a loss, and the
upserted per-role row satisfies the same recompute; a missing prior row
counts as rate 0 over 0 matches. -/
theorem c4_per_champion_role_recompute (faults : Nat → Bool) (db db' : DB)
    (summonerID : Int) (champion : Champion) (kda : KDA) (role : String) (won : Bool)
    (h : updateSummonerStatistics faults db summonerID champion kda role won = .ok db') :
    findRow (summonerID, champion.id) db'.summonerChampionStats =
      some ⟨((findRow (summonerID, champion.id) db.summonerChampionStats).getD
               ⟨0, 0⟩).countOfPlayedMatches + 1,
            (((findRow (summonerID, champion.id) db.summonerChampionStats).getD
                ⟨0, 0⟩).winRate *
              ((((findRow (summonerID, champion.id) db.summonerChampionStats).getD
                  ⟨0, 0⟩).countOfPlayedMatches : Int) : ℚ) +
              (if won then 1 else 0)) /
              ((((findRow (summonerID, champion.id) db.summonerChampionStats).getD
                  ⟨0, 0⟩).countOfPlayedMatches + 1 : Int) : ℚ)⟩ ∧
    findRow (summonerID, role) db'.summonerRoleStats =
      some ⟨((findRow (summonerID, role) db.summonerRoleStats).getD
               ⟨0, 0⟩).countOfPlayedMatches + 1,
            (((findRow (summonerID, role) db.summonerRoleStats).getD ⟨0, 0⟩).winRate *
              ((((findRow (summonerID, role) db.summonerRoleStats).getD
                  ⟨0, 0⟩).countOfPlayedMatches : Int) : ℚ) +
              (if won then 1 else 0)) /
              ((((findRow (summonerID, role) db.summonerRoleStats).getD
                  ⟨0, 0⟩).countOfPlayedMatches + 1 : Int) : ℚ)⟩ := by
  obtain ⟨srow, wins0, hfind, hscan, hcs, hrs, hsum, hch, hbest, hmat⟩ :=
    updateSummonerStatistics_ok_spec faults db db' summonerID champion kda role won h
  constructor
  · rw [hcs, findRow_upsertRow_self]
    cases won <;> simp [Int.add_sub_cancel]
  · rw [hrs, findRow_upsertRow_self]
    cases won <;> simp [Int.add_sub_cancel]

unseal Rat.mul Rat.inv Rat.add Rat.sub in
/-- Witness for C4: a first won match on champion 7 in role "Top" yields a
per-champion row (1 match, rate 1) and a per-role row (1 match, rate 1). -/
theorem c4_per_champion_role_recompute_witness :
    findRow ((1 : Int), (7 : Int))
        (runUpdateSummonerStatistics noFaults (oneSummoner 0 0 ⟨0, 0, 0⟩) 1 champW
          ⟨1, 2, 3⟩ "Top" true).summonerChampionStats = some ⟨1, 1⟩ ∧
    findRow ((1 : Int), "Top")
        (runUpdateSummonerStatistics noFaults (oneSummoner 0 0 ⟨0, 0, 0⟩) 1 champW
          ⟨1, 2, 3⟩ "Top" true).summonerRoleStats = some ⟨1, 1⟩ :=
  ⟨((c4_per_champion_role_recompute noFaults (oneSummoner 0 0 ⟨0, 0, 0⟩)
        (runUpdateSummonerStatistics noFaults (oneSummoner 0 0 ⟨0, 0, 0⟩) 1 champW
          ⟨1, 2, 3⟩ "Top" true)
        1 champW ⟨1, 2, 3⟩ "Top" true (by decide)).1).trans (by decide),
   ((c4_per_champion_role_recompute noFaults (oneSummoner 0 0 ⟨0, 0, 0⟩)
        (runUpdateSummonerStatistics noFaults (oneSummoner 0 0 ⟨0, 0, 0⟩) 1 champW
          ⟨1, 2, 3⟩ "Top" true)
        1 champW ⟨1, 2, 3⟩ "Top" true (by decide)).2).trans (by decide)⟩

end LeagueOfGraphs

namespace LeagueOfGraphs

theorem statsInvariant_unitInterval {db : DB} (h : statsInvariant db) :
    winRatesInUnitInterval db :=
  ⟨fun p hp => ((h.1 p hp).1), fun p hp => ((h.2.1 p hp).1),
   fun p hp => ((h.2.2.1 p hp).1), fun p hp => ((h.2.2.2.1 p hp).1),
   fun p hp => ((h.2.2.2.2 p hp).1)⟩

theorem validRate_div (a : ℚ) (n : Int) (h0 : 0 ≤ a) (h1 : a ≤ (n : ℚ)) (hn : 0 < n) :
    validRate (a / ((n : Int) : ℚ)) := by
  have hn1 : (0 : ℚ) < (n : ℚ) := by exact_mod_cast hn
  exact ⟨div_nonneg h0 hn1.le, (div_le_one hn1).2 h1⟩

theorem scanFloatAsInt_eq {q : ℚ} {w : Int} (h : scanFloatAsInt q = some w) :
    q = (w : ℚ) := by
  unfold scanFloatAsInt at h
  split at h
  · next hden =>
    cases h
    conv_lhs => rw [← Rat.num_div_den q]
    rw [hden]
    simp
  · cases h

theorem statsInvariant_summoner_ok (faults : Nat → Bool) (db db' : DB)
    (summonerID : Int) (champion : Champion) (kda : KDA) (role : String) (won : Bool)
    (hInv : statsInvariant db)
    (h : updateSummonerStatistics faults db summonerID champion kda role won = .ok db') :
    statsInvariant db' := by
  obtain ⟨srow, wins0, hfind, hscan, hcs, hrs, hsum, hch, hbest, hmat⟩ :=
    updateSummonerStatistics_ok_spec faults db db' summonerID champion kda role won h
  obtain ⟨invS, invC, invCS, invRS, invBS⟩ := hInv
  have hsfacts : validRate srow.winRate ∧ 0 ≤ srow.countOfPlayedGames ∧
      (srow.countOfPlayedGames = 0 → srow.winRate < 1) := invS _ (findRow_mem hfind)
  obtain ⟨hsrate, hscount, hszero⟩ := hsfacts
  have hq : srow.winRate = (wins0 : ℚ) := scanFloatAsInt_eq hscan
  have hw0 : 0 ≤ wins0 := by
    have h1 := hsrate.1
    rw [hq] at h1
    exact_mod_cast h1
  have hw1 : wins0 ≤ 1 := by
    have h1 := hsrate.2
    rw [hq] at h1
    exact_mod_cast h1
  have hwins_le : (if won then wins0 + 1 else wins0) ≤ srow.countOfPlayedGames + 1 := by
    by_cases hg : srow.countOfPlayedGames = 0
    · have h1 : srow.winRate < 1 := hszero hg
      rw [hq] at h1
      have h2 : wins0 < 1 := by exact_mod_cast h1
      cases won <;> simp <;> omega
    · cases won <;> simp <;> omega
  have hwins0 : 0 ≤ (if won then wins0 + 1 else wins0) := by
    cases won <;> simp <;> omega
  have hcs0 :
      validRate ((findRow (summonerID, champion.id) db.summonerChampionStats).getD
        ⟨0, 0⟩).winRate ∧
      0 ≤ ((findRow (summonerID, champion.id) db.summonerChampionStats).getD
        ⟨0, 0⟩).countOfPlayedMatches := by
    cases hfind2 : findRow (summonerID, champion.id) db.summonerChampionStats with
    | none => exact ⟨⟨le_refl 0, by norm_num⟩, le_refl 0⟩
    | some v =>
      have hv : validRate v.winRate ∧ 0 ≤ v.countOfPlayedMatches :=
        invCS _ (findRow_mem hfind2)
      simpa using hv
  have hrs0 :
      validRate ((findRow (summonerID, role) db.summonerRoleStats).getD ⟨0, 0⟩).winRate ∧
      0 ≤ ((findRow (summonerID, role) db.summonerRoleStats).getD
        ⟨0, 0⟩).countOfPlayedMatches := by
    cases hfind2 : findRow (summonerID, role) db.summonerRoleStats with
    | none => exact ⟨⟨le_refl 0, by norm_num⟩, le_refl 0⟩
    | some v =>
      have hv : validRate v.winRate ∧ 0 ≤ v.countOfPlayedMatches :=
        invRS _ (findRow_mem hfind2)
      simpa using hv
  refine ⟨?_, ?_, ?_, ?_, ?_⟩
  · rw [hsum]
    intro p hp
    rcases mem_updateRows hp with hp | ⟨q, hq2, hkey, rfl⟩
    · exact invS _ hp
    · refine ⟨?_, by simp; omega, ?_⟩
      · have hcast : ((if won then wins0 + 1 else wins0 : Int) : ℚ) ≤
            ((srow.countOfPlayedGames + 1 : Int) : ℚ) := by exact_mod_cast hwins_le
        have hcast0 : (0 : ℚ) ≤ ((if won then wins0 + 1 else wins0 : Int) : ℚ) := by
          exact_mod_cast hwins0
        simpa using validRate_div _ (srow.countOfPlayedGames + 1) hcast0 hcast (by omega)
      · intro habs
        simp at habs
        omega
  · rw [hch]
    exact invC
  · rw [hcs]
    intro p hp
    rcases mem_upsertRow hp with rfl | hp
    · obtain ⟨⟨hr0, hr1⟩, hn0⟩ := hcs0
      refine ⟨?_, by simp; omega⟩
      have hnn : (0 : ℚ) ≤
          (((findRow (summonerID, champion.id) db.summonerChampionStats).getD
            ⟨0, 0⟩).countOfPlayedMatches : ℚ) := by exact_mod_cast hn0
      cases won <;> simp only [Int.add_sub_cancel, if_true, if_false, ite_true, ite_false]
      · refine validRate_div _ _ (by positivity) ?_ (by omega)
        push_cast
        nlinarith
      · refine validRate_div _ _ (by positivity) ?_ (by omega)
        push_cast
        nlinarith
    · exact invCS _ hp
  · rw [hrs]
    intro p hp
    rcases mem_upsertRow hp with rfl | hp
    · obtain ⟨⟨hr0, hr1⟩, hn0⟩ := hrs0
      refine ⟨?_, by simp; omega⟩
      have hnn : (0 : ℚ) ≤
          (((findRow (summonerID, role) db.summonerRoleStats).getD
            ⟨0, 0⟩).countOfPlayedMatches : ℚ) := by exact_mod_cast hn0
      cases won <;> simp only [Int.add_sub_cancel, if_true, if_false, ite_true, ite_false]
      · refine validRate_div _ _ (by positivity) ?_ (by omega)
        push_cast
        nlinarith
      · refine validRate_div _ _ (by positivity) ?_ (by omega)
        push_cast
        nlinarith
    · exact invRS _ hp
  · rw [hbest]
    exact invBS

end LeagueOfGraphs

namespace LeagueOfGraphs

theorem statsInvariant_champion_ok (faults : Nat → Bool) (db db' : DB)
    (championID summonerID : Int) (won : Bool)
    (hInv : statsInvariant db)
    (h : updateChampionStatistics faults db championID summonerID won = .ok db') :
    statsInvariant db' := by
  obtain ⟨crow, wins0, scs, hfind, hscan, hstats, hchs, hbest, hsum, hcsu, hrsu, hmat⟩ :=
    updateChampionStatistics_ok_spec faults db db' championID summonerID won h
  obtain ⟨invS, invC, invCS, invRS, invBS⟩ := hInv
  have hcfacts : validRate crow.winRate ∧ 0 ≤ crow.countOfPlayedMatches ∧
      (crow.countOfPlayedMatches = 0 → crow.winRate < 1) := invC _ (findRow_mem hfind)
  obtain ⟨hcrate, hccount, hczero⟩ := hcfacts
  have hq : crow.winRate = (wins0 : ℚ) := scanFloatAsInt_eq hscan
  have hw0 : 0 ≤ wins0 := by
    have h1 := hcrate.1
    rw [hq] at h1
    exact_mod_cast h1
  have hw1 : wins0 ≤ 1 := by
    have h1 := hcrate.2
    rw [hq] at h1
    exact_mod_cast h1
  have hwins_le : (if won then wins0 + 1 else wins0) ≤ crow.countOfPlayedMatches + 1 := by
    by_cases hg : crow.countOfPlayedMatches = 0
    · have h1 : crow.winRate < 1 := hczero hg
      rw [hq] at h1
      have h2 : wins0 < 1 := by exact_mod_cast h1
      cases won <;> simp <;> omega
    · cases won <;> simp <;> omega
  have hwins0 : 0 ≤ (if won then wins0 + 1 else wins0) := by
    cases won <;> simp <;> omega
  have hscsfacts : validRate scs.winRate ∧ 0 ≤ scs.countOfPlayedMatches :=
    invCS _ (findRow_mem hstats)
  refine ⟨?_, ?_, ?_, ?_, ?_⟩
  · rw [hsum]
    exact invS
  · rw [hchs]
    intro p hp
    rcases mem_updateRows hp with hp | ⟨q, hq2, hkey, rfl⟩
    · exact invC _ hp
    · refine ⟨?_, by simp; omega, ?_⟩
      · have hcast : ((if won then wins0 + 1 else wins0 : Int) : ℚ) ≤
            ((crow.countOfPlayedMatches + 1 : Int) : ℚ) := by exact_mod_cast hwins_le
        have hcast0 : (0 : ℚ) ≤ ((if won then wins0 + 1 else wins0 : Int) : ℚ) := by
          exact_mod_cast hwins0
        simpa using validRate_div _ (crow.countOfPlayedMatches + 1) hcast0 hcast (by omega)
      · intro habs
        simp at habs
        omega
  · rw [hcsu]
    exact invCS
  · rw [hrsu]
    exact invRS
  · rw [hbest]
    intro p hp
    rcases mem_upsertRow hp with rfl | hp
    · simpa using hscsfacts
    · exact invBS _ hp

unseal Rat.mul Rat.inv Rat.add Rat.sub in
/-- Claim C7 (counterexample): the claimed invariant — all stored win rates
in [0,1] — is not preserved. A summoner row with 0 games and win rate 1
satisfies it, yet processing a won match stores win rate (1+1)/1 = 2,
because the source uses the scanned `win_rate` value as the prior wins
count. -/
theorem c7_counterexample_unit_interval_not_preserved :
    winRatesInUnitInterval (oneSummoner 0 1 ⟨0, 0, 0⟩) ∧
    ¬ winRatesInUnitInterval
        (runUpdateSummonerStatistics noFaults (oneSummoner 0 1 ⟨0, 0, 0⟩) 1 champW
          ⟨0, 0, 0⟩ "Top" true) := by
  decide

/-- Claim C7 (amended): strengthen the invariant to also record that
games/match counters are nonnegative and that a summoner or champion row
with zero recorded games does not already claim win rate 1
(`statsInvariant`); that invariant — which contains "every stored win rate
lies in [0,1]" — is preserved by every run of either statistics updater,
under any fault oracle. -/
theorem c7_amended_invariant_preserved (faults : Nat → Bool) (db : DB)
    (summonerID : Int) (champion : Champion) (kda : KDA) (role : String) (won : Bool)
    (championID summonerID2 : Int) (won2 : Bool)
    (hInv : statsInvariant db) :
    statsInvariant (runUpdateSummonerStatistics faults db summonerID champion kda role won) ∧
    statsInvariant (runUpdateChampionStatistics faults db championID summonerID2 won2) ∧
    winRatesInUnitInterval
      (runUpdateSummonerStatistics faults db summonerID champion kda role won) ∧
    winRatesInUnitInterval
      (runUpdateChampionStatistics faults db championID summonerID2 won2) := by
  have hs : statsInvariant
      (runUpdateSummonerStatistics faults db summonerID champion kda role won) := by
    unfold runUpdateSummonerStatistics
    split
    · next heq =>
      exact statsInvariant_summoner_ok faults db _ summonerID champion kda role won hInv heq
    · exact hInv
  have hc : statsInvariant (runUpdateChampionStatistics faults db championID summonerID2 won2) := by
    unfold runUpdateChampionStatistics
    split
    · next heq =>
      exact statsInvariant_champion_ok faults db _ championID summonerID2 won2 hInv heq
    · exact hInv
  exact ⟨hs, hc, statsInvariant_unitInterval hs, statsInvariant_unitInterval hc⟩

unseal Rat.mul Rat.inv Rat.add Rat.sub in
/-- Witness for the amended C7 on a concrete store holding a champion and a
stats row. -/
theorem c7_amended_invariant_preserved_witness :
    statsInvariant (runUpdateSummonerStatistics noFaults dbChamp 1 champW ⟨1, 2, 3⟩ "Top" true) ∧
    statsInvariant (runUpdateChampionStatistics noFaults dbChamp 7 1 true) ∧
    winRatesInUnitInterval
      (runUpdateSummonerStatistics noFaults dbChamp 1 champW ⟨1, 2, 3⟩ "Top" true) ∧
    winRatesInUnitInterval (runUpdateChampionStatistics noFaults dbChamp 7 1 true) :=
  c7_amended_invariant_preserved noFaults dbChamp 1 champW ⟨1, 2, 3⟩ "Top" true 7 1 true
    (by decide)

end LeagueOfGraphs
